import Mathlib

/-!
Verification of the PostgreSQL instance health-check utility (ipcheck.py).

The source is a synchronous Python script with two functions:

* `check_network(ip, port)` — runs a single `ping` subprocess (timeout 5 s)
  and a single TCP `connect_ex` on a socket with `settimeout(5)`; both
  sub-checks are wrapped in `try/except Exception: pass`, so failures only
  leave the corresponding flag `False`.
* `check_pg_status(pg_ip, pg_port, dbname, user, password)` — calls
  `check_network`, short-circuits on an unreachable IP or a closed port,
  otherwise connects with `psycopg2` (connect_timeout 5), queries
  `pg_is_in_recovery()`, and on a primary runs the write probe
  `CREATE TABLE IF NOT EXISTS login` / `INSERT ... RETURNING login_time` /
  `fetchone` / `commit`.  An inner `try/finally` closes cursor and
  connection; an inner `except PG_Error` classifies write-probe failures;
  outer `except PG_Error` / `except Exception` classify connection-stage
  failures and unknown errors.

The embedding makes the external world explicit: an environment record
carries the outcome of each effectful call (the ping return code, the
`connect_ex` return value, and the result of every database-driver call,
each of which may raise).  Each embedded function returns

* the result structure exactly as the Python code builds it,
* a trace of the external effects it performed (in order), and
* the exception escaping to the caller, if any (`none` when the source's
  handlers catch everything).

Modelling notes, faithful to the driver's documented behaviour:
* `conn.cursor()` on a freshly opened connection, `cursor.close()` and
  `conn.close()` do not raise in psycopg2, so they are modelled as
  infallible; every other driver call (connect, execute, fetchone, commit)
  may raise either a `psycopg2.Error` (`PG_Error`) or another exception.
* `cursor.fetchone()` returns an optional row; subscripting a `None` row
  raises a `TypeError`, which is not a `PG_Error`.
* Python exceptions do not roll back assignments already made to the
  result dict; the embedding threads the result record through each stage
  accordingly.
-/

/-- Exceptions distinguished by the source's handlers: `psycopg2.Error`
(`PG_Error`) versus every other Python exception. -/
inductive PyExc where
  | pgError (msg : String)
  | otherExc (msg : String)
deriving DecidableEq, Repr

/-- Result dictionary of `check_network`: both keys are initialised to
`False` and set to `True` only on a confirmed probe success. -/
structure NetworkStatus where
  ip_reachable : Bool
  port_open : Bool
deriving DecidableEq, Repr

/-- External-world outcomes consumed by `check_network`: the platform test,
the ping subprocess (return code, or an exception such as a timeout or a
missing binary), and the socket `connect_ex` call (return value, or an
exception raised during socket setup/connect). -/
structure NetEnv where
  isWindows : Bool
  pingResult : Except PyExc Int
  sockConnectEx : Except PyExc Int

/-- A Python `datetime` value as returned by the server for the inserted
`login_time` row. -/
structure PyDatetime where
  year : Nat
  month : Nat
  day : Nat
  hour : Nat
  minute : Nat
  second : Nat
deriving DecidableEq, Repr

/-- External-world outcomes consumed by `check_pg_status`: the network
environment plus the outcome of every psycopg2 call the code makes. -/
structure DBEnv where
  net : NetEnv
  connectResult : Except PyExc Unit
  roleExec : Except PyExc Unit
  roleFetch : Except PyExc (Option Bool)
  createExec : Except PyExc Unit
  insertExec : Except PyExc Unit
  insertFetch : Except PyExc (Option PyDatetime)
  commitResult : Except PyExc Unit

/-- Zero-pad a number to a given width, as `strftime` does. -/
def padZero (width : Nat) (n : Nat) : String :=
  let s := toString n
  if s.length < width then String.mk (List.replicate (width - s.length) '0') ++ s else s

/-- The code's `inserted_time.strftime("%Y-%m-%d %H:%M:%S")`. -/
def PyDatetime.strftimeYmdHMS (d : PyDatetime) : String :=
  padZero 4 d.year ++ "-" ++ padZero 2 d.month ++ "-" ++ padZero 2 d.day ++ " " ++
    padZero 2 d.hour ++ ":" ++ padZero 2 d.minute ++ ":" ++ padZero 2 d.second

/-- External effects performed by the checker, in program order. -/
inductive Event where
  | pingProbe (command : List String) (timeoutSec : Nat)
  | tcpProbe (ip : String) (port : Nat) (timeoutSec : Nat)
  | connectAttempt (dbname : String) (user : String) (password : String)
      (connectTimeoutSec : Nat)
  | execRoleQuery
  | fetchRole
  | execCreateTable
  | execInsert
  | fetchInserted
  | commitTxn
  | cursorClose
  | connClose
deriving DecidableEq, Repr

/-- Whether an event is an attempt to open a database connection. -/
def Event.isConnectAttempt : Event → Bool
  | .connectAttempt _ _ _ _ => true
  | _ => false

/-- Whether an event is a write against the database: the probe-table
creation, the insert, or the commit. -/
def Event.isWrite : Event → Bool
  | .execCreateTable => true
  | .execInsert => true
  | .commitTxn => true
  | _ => false

/-- Whether an event is the TCP port probe. -/
def Event.isTcpProbe : Event → Bool
  | .tcpProbe _ _ _ => true
  | _ => false

/-- Timeout (seconds) passed to `subprocess.run` for the ping probe; the
source hard-codes `timeout=5`. -/
def pingTimeoutSec : Nat := 5

/-- Timeout (seconds) set on the TCP socket; the source hard-codes
`sock.settimeout(5)`. -/
def sockTimeoutSec : Nat := 5

/-- Connect timeout (seconds) passed to `psycopg2.connect`; the source
hard-codes `connect_timeout=5`. -/
def connectTimeoutSec : Nat := 5

/-- The parameters of `check_network` as declared in the source:
`def check_network(ip: str, port: int)`. -/
def check_network_params : List String := ["ip", "port"]

/-- The ping command line built by the source:
`['ping', param, '1', ip]` with `param = '-n'` on Windows, `'-c'` elsewhere. -/
def pingCommand (isWindows : Bool) (ip : String) : List String :=
  ["ping", if isWindows then "-n" else "-c", "1", ip]

/-- The first `try` block of `check_network`: run the ping subprocess and
set `ip_reachable` when the return code is 0.  Returns the flag value at
block exit together with the exception raised inside the block, if any
(the flag assignment never happened when an exception was raised). -/
def pingBlock (env : NetEnv) : Bool × Option PyExc :=
  match env.pingResult with
  | .ok rc => (rc == 0, none)
  | .error e => (false, some e)

/-- The second `try` block of `check_network`: create the socket, call
`connect_ex`, and set `port_open` when it returns 0. -/
def sockBlock (env : NetEnv) : Bool × Option PyExc :=
  match env.sockConnectEx with
  | .ok rc => (rc == 0, none)
  | .error e => (false, some e)

/-- The source's `except Exception: pass` handler: every exception class is
caught and discarded, so nothing escapes. -/
def exceptPass (e : Option PyExc) : Option PyExc :=
  match e with
  | some _ => none
  | none => none

/-- Outcome of a `check_network` invocation: the returned status dict, the
trace of external effects, and the exception escaping to the caller
(if any). -/
structure NetOutcome where
  status : NetworkStatus
  trace : List Event
  escaped : Option PyExc
deriving Repr

/-- Embedding of `check_network(ip, port)`.  Both probe blocks always run,
each wrapped in `try/except Exception: pass`. -/
def check_network (ip : String) (port : Nat) (env : NetEnv) : NetOutcome :=
  let pinged := pingBlock env
  let socked := sockBlock env
  { status := { ip_reachable := pinged.1, port_open := socked.1 }
    trace := [.pingProbe (pingCommand env.isWindows ip) pingTimeoutSec,
              .tcpProbe ip port sockTimeoutSec]
    escaped :=
      match exceptPass pinged.2 with
      | some e => some e
      | none => exceptPass socked.2 }

/-- Result dictionary of `check_pg_status`.  The keys `network_status`,
`db_connected` and `error` are initialised to `None`; `is_standby` and
`inserted_time` are only added on the corresponding success paths, so
`none` models both an absent key and an explicit `None`. -/
structure HealthResult where
  network_status : Option NetworkStatus
  db_connected : Option Bool
  error : Option String
  is_standby : Option Bool
  inserted_time : Option String
deriving DecidableEq, Repr

/-- The initial result dict of `check_pg_status`. -/
def initHealthResult : HealthResult :=
  { network_status := none, db_connected := none, error := none,
    is_standby := none, inserted_time := none }

/-- Intermediate state of a stage of `check_pg_status`: the result dict so
far (Python assignments survive exceptions), the events performed, and the
exception in flight. -/
structure StageOut where
  res : HealthResult
  evs : List Event
  exc : Option PyExc

/-- Error message `f"IP地址 {pg_ip} 不可达"`. -/
def hostUnreachableMsg (pg_ip : String) : String :=
  "IP地址 " ++ pg_ip ++ " 不可达"

/-- Error message `f"端口 {pg_port} 未开放"`. -/
def portClosedMsg (pg_port : Nat) : String :=
  "端口 " ++ toString pg_port ++ " 未开放"

/-- Prefix of `f"PostgreSQL连接失败: {e}"`. -/
def connectFailedPrefix : String := "PostgreSQL连接失败: "

/-- Prefix of `f"发生未知错误: {e}"`. -/
def unknownErrorPrefix : String := "发生未知错误: "

/-- Prefix of `f"无法插入数据，请手动检查数据库状态: {e}"`. -/
def writeProbeErrorPrefix : String := "无法插入数据，请手动检查数据库状态: "

/-- The `TypeError` raised by subscripting the `None` returned by
`fetchone()` on an empty result. -/
def noneSubscriptExc : PyExc :=
  .otherExc "TypeError: NoneType object is not subscriptable"

/-- Body of the innermost `try` of the write probe on a primary:
`CREATE TABLE IF NOT EXISTS login ...`, `INSERT ... RETURNING login_time`,
`fetchone()[0]`, `commit()`, then the three result assignments. -/
def writeProbeBody (env : DBEnv) (res : HealthResult) : StageOut :=
  match env.createExec with
  | .error e => { res := res, evs := [.execCreateTable], exc := some e }
  | .ok _ =>
    match env.insertExec with
    | .error e => { res := res, evs := [.execCreateTable, .execInsert], exc := some e }
    | .ok _ =>
      match env.insertFetch with
      | .error e =>
        { res := res, evs := [.execCreateTable, .execInsert, .fetchInserted],
          exc := some e }
      | .ok none =>
        { res := res, evs := [.execCreateTable, .execInsert, .fetchInserted],
          exc := some noneSubscriptExc }
      | .ok (some ts) =>
        match env.commitResult with
        | .error e =>
          { res := res,
            evs := [.execCreateTable, .execInsert, .fetchInserted, .commitTxn],
            exc := some e }
        | .ok _ =>
          { res := { res with db_connected := some true,
                              inserted_time := some ts.strftimeYmdHMS,
                              is_standby := some false },
            evs := [.execCreateTable, .execInsert, .fetchInserted, .commitTxn],
            exc := none }

/-- The write probe with its `except PG_Error` handler: a `PG_Error` from
the probe is converted into `db_connected=False` and the insert-failure
message; any other exception keeps propagating. -/
def writeProbe (env : DBEnv) (res : HealthResult) : StageOut :=
  let out := writeProbeBody env res
  match out.exc with
  | some (.pgError m) =>
    { res := { out.res with db_connected := some false,
                            error := some (writeProbeErrorPrefix ++ m) },
      evs := out.evs, exc := none }
  | _ => out

/-- Body of the inner `try` (after a successful connect): create the
cursor, run the role query, fetch and subscript its row, then branch on
`is_standby`. -/
def innerBody (env : DBEnv) (res : HealthResult) : StageOut :=
  match env.roleExec with
  | .error e => { res := res, evs := [.execRoleQuery], exc := some e }
  | .ok _ =>
    match env.roleFetch with
    | .error e => { res := res, evs := [.execRoleQuery, .fetchRole], exc := some e }
    | .ok none =>
      { res := res, evs := [.execRoleQuery, .fetchRole], exc := some noneSubscriptExc }
    | .ok (some is_standby) =>
      if !is_standby then
        let out := writeProbe env res
        { res := out.res, evs := .execRoleQuery :: .fetchRole :: out.evs, exc := out.exc }
      else
        { res := { res with db_connected := some true, is_standby := some true },
          evs := [.execRoleQuery, .fetchRole], exc := none }

/-- The inner `try/finally`: whatever the body did, `cursor.close()` and
`conn.close()` run before the in-flight exception (if any) continues to
propagate. -/
def innerWithFinally (env : DBEnv) (res : HealthResult) : StageOut :=
  let out := innerBody env res
  { res := out.res, evs := out.evs ++ [.cursorClose, .connClose], exc := out.exc }

/-- Body of the outer `try`: the `psycopg2.connect` call followed, on
success, by the inner `try/finally`. -/
def connectBlock (dbname : String) (user : String) (password : String)
    (env : DBEnv) (res : HealthResult) : StageOut :=
  match env.connectResult with
  | .error e =>
    { res := res, evs := [.connectAttempt dbname user password connectTimeoutSec],
      exc := some e }
  | .ok _ =>
    let out := innerWithFinally env res
    { res := out.res,
      evs := .connectAttempt dbname user password connectTimeoutSec :: out.evs,
      exc := out.exc }

/-- The outer handlers: `except PG_Error` sets `db_connected=False` with
the connection-failure message; `except Exception` sets
`db_connected=None` with the unknown-error message.  Together they catch
every exception. -/
def applyOuterHandlers (out : StageOut) : StageOut :=
  match out.exc with
  | none => out
  | some (.pgError m) =>
    { res := { out.res with db_connected := some false,
                            error := some (connectFailedPrefix ++ m) },
      evs := out.evs, exc := none }
  | some (.otherExc m) =>
    { res := { out.res with db_connected := none,
                            error := some (unknownErrorPrefix ++ m) },
      evs := out.evs, exc := none }

/-- Outcome of a `check_pg_status` invocation: the returned result dict,
the trace of external effects, and the exception escaping to the caller
(if any). -/
structure PgOutcome where
  result : HealthResult
  trace : List Event
  escaped : Option PyExc
deriving Repr

/-- Embedding of `check_pg_status(pg_ip, pg_port, dbname, user, password)`:
network check first, short-circuit on unreachable IP or closed port, then
the guarded connect/role-query/write-probe sequence. -/
def check_pg_status (pg_ip : String) (pg_port : Nat)
    (dbname : String) (user : String) (password : String)
    (env : DBEnv) : PgOutcome :=
  let netOut := check_network pg_ip pg_port env.net
  let res := { initHealthResult with network_status := some netOut.status }
  if !netOut.status.ip_reachable then
    { result := { res with error := some (hostUnreachableMsg pg_ip) },
      trace := netOut.trace, escaped := none }
  else if !netOut.status.port_open then
    { result := { res with error := some (portClosedMsg pg_port) },
      trace := netOut.trace, escaped := none }
  else
    let out := applyOuterHandlers (connectBlock dbname user password env res)
    { result := out.res, trace := netOut.trace ++ out.evs, escaped := out.exc }

/-- Whether event `a` occurs (first occurrence) strictly before event `b`
in a trace, both being present. -/
def beforeIn (a b : Event) (tr : List Event) : Bool :=
  tr.contains a && tr.contains b &&
    tr.findIdx (fun e => e == a) < tr.findIdx (fun e => e == b)

/-- The write-probe step order asserted by the specification: create the
table, insert, commit, and then read back the inserted timestamp. -/
def specClaimedWriteOrder (tr : List Event) : Bool :=
  beforeIn .execCreateTable .execInsert tr && beforeIn .execInsert .commitTxn tr &&
    beforeIn .commitTxn .fetchInserted tr

/-- The write-probe step order the source actually performs: create the
table, insert (with `RETURNING`), read back the inserted timestamp via
`fetchone`, and only then commit. -/
def sourceWriteOrder (tr : List Event) : Bool :=
  beforeIn .execCreateTable .execInsert tr && beforeIn .execInsert .fetchInserted tr &&
    beforeIn .fetchInserted .commitTxn tr

/-- A network environment in which ping and TCP connect both succeed. -/
def netEnvAllOk : NetEnv :=
  { isWindows := false, pingResult := .ok 0, sockConnectEx := .ok 0 }

/-- A network environment in which ping reports failure (exit code 1) but
the TCP connect would succeed. -/
def netEnvPingFail : NetEnv :=
  { isWindows := false, pingResult := .ok 1, sockConnectEx := .ok 0 }

/-- A network environment in which ping succeeds but `connect_ex` returns
a nonzero error (111 = connection refused). -/
def netEnvPortClosed : NetEnv :=
  { isWindows := false, pingResult := .ok 0, sockConnectEx := .ok 111 }

/-- A concrete server timestamp used in witnesses. -/
def sampleTs : PyDatetime :=
  { year := 2025, month := 3, day := 7, hour := 9, minute := 5, second := 42 }

/-- An environment for a reachable primary on which every database call
succeeds. -/
def dbEnvPrimaryOk : DBEnv :=
  { net := netEnvAllOk, connectResult := .ok (), roleExec := .ok (),
    roleFetch := .ok (some false), createExec := .ok (), insertExec := .ok (),
    insertFetch := .ok (some sampleTs), commitResult := .ok () }

/-- An environment for a reachable standby: the role query reports
recovery mode. -/
def dbEnvStandby : DBEnv :=
  { dbEnvPrimaryOk with roleFetch := .ok (some true) }

/-- An environment in which the host does not answer ping. -/
def dbEnvUnreachable : DBEnv :=
  { dbEnvPrimaryOk with net := netEnvPingFail }

/-- An environment in which the host answers ping but the port is closed. -/
def dbEnvPortShut : DBEnv :=
  { dbEnvPrimaryOk with net := netEnvPortClosed }

/-- An environment in which the insert of the write probe raises a
`PG_Error`. -/
def dbEnvInsertFail : DBEnv :=
  { dbEnvPrimaryOk with insertExec := .error (.pgError "read-only transaction") }

/-- An environment in which the role query itself raises a `PG_Error`. -/
def dbEnvRoleFail : DBEnv :=
  { dbEnvPrimaryOk with roleExec := .error (.pgError "server closed the connection") }

/-- Claim C1: when the network probe reports `ip_reachable = false`,
`check_pg_status` terminates with `db_connected` unknown, the
host-unreachable error message, and no connection attempt; when
`ip_reachable = true` but `port_open = false`, it terminates with
`db_connected` unknown, the port-not-open error message, and no connection
attempt. -/
theorem check_pg_status_network_short_circuit
    (pg_ip : String) (pg_port : Nat) (dbname : String) (user : String)
    (password : String) (env : DBEnv) :
    ((check_network pg_ip pg_port env.net).status.ip_reachable = false →
      (check_pg_status pg_ip pg_port dbname user password env).result.db_connected = none ∧
      (check_pg_status pg_ip pg_port dbname user password env).result.error =
        some (hostUnreachableMsg pg_ip) ∧
      ∀ e ∈ (check_pg_status pg_ip pg_port dbname user password env).trace,
        e.isConnectAttempt = false) ∧
    ((check_network pg_ip pg_port env.net).status.ip_reachable = true →
      (check_network pg_ip pg_port env.net).status.port_open = false →
      (check_pg_status pg_ip pg_port dbname user password env).result.db_connected = none ∧
      (check_pg_status pg_ip pg_port dbname user password env).result.error =
        some (portClosedMsg pg_port) ∧
      ∀ e ∈ (check_pg_status pg_ip pg_port dbname user password env).trace,
        e.isConnectAttempt = false) := by
  constructor
  · intro hip
    simp only [check_pg_status, hip, Bool.not_false, if_pos, initHealthResult]
    refine ⟨trivial, trivial, ?_⟩
    intro e he
    simp only [check_network, List.mem_cons, List.mem_singleton,
      List.not_mem_nil, or_false] at he
    rcases he with he | he <;> subst he <;> rfl
  · intro hip hport
    simp only [check_pg_status, hip, hport, Bool.not_true, Bool.not_false,
      if_neg, if_pos, Bool.false_eq_true, not_false_eq_true, initHealthResult]
    refine ⟨trivial, trivial, ?_⟩
    intro e he
    simp only [check_network, List.mem_cons, List.mem_singleton,
      List.not_mem_nil, or_false] at he
    rcases he with he | he <;> subst he <;> rfl

/-- Witness for C1: a concrete unreachable host and a concrete
host-with-closed-port, with the short-circuit theorem applied and its
hypotheses discharged by evaluation. -/
theorem check_pg_status_network_short_circuit_witness :
    ((check_pg_status "192.0.2.1" 5432 "mydb" "u" "pw" dbEnvUnreachable).result.db_connected
        = none ∧
      (check_pg_status "192.0.2.1" 5432 "mydb" "u" "pw" dbEnvUnreachable).result.error =
        some (hostUnreachableMsg "192.0.2.1") ∧
      ∀ e ∈ (check_pg_status "192.0.2.1" 5432 "mydb" "u" "pw" dbEnvUnreachable).trace,
        e.isConnectAttempt = false) ∧
    ((check_pg_status "192.0.2.2" 5433 "mydb" "u" "pw" dbEnvPortShut).result.db_connected
        = none ∧
      (check_pg_status "192.0.2.2" 5433 "mydb" "u" "pw" dbEnvPortShut).result.error =
        some (portClosedMsg 5433) ∧
      ∀ e ∈ (check_pg_status "192.0.2.2" 5433 "mydb" "u" "pw" dbEnvPortShut).trace,
        e.isConnectAttempt = false) :=
  ⟨(check_pg_status_network_short_circuit "192.0.2.1" 5432 "mydb" "u" "pw"
      dbEnvUnreachable).1 rfl,
    (check_pg_status_network_short_circuit "192.0.2.2" 5433 "mydb" "u" "pw"
      dbEnvPortShut).2 rfl rfl⟩

/-- Claim C2: when the network checks pass, the connection succeeds, the
role query reports a primary, and the create/insert/fetch/commit probe
succeeds, `check_pg_status` returns `db_connected = true`,
`is_standby = false`, and `inserted_time` equal to the server-reported
timestamp formatted with `strftime("%Y-%m-%d %H:%M:%S")`. -/
theorem check_pg_status_primary_success
    (pg_ip : String) (pg_port : Nat) (dbname : String) (user : String)
    (password : String) (env : DBEnv) (ts : PyDatetime)
    (hip : (check_network pg_ip pg_port env.net).status.ip_reachable = true)
    (hport : (check_network pg_ip pg_port env.net).status.port_open = true)
    (hconn : env.connectResult = .ok ())
    (hrole : env.roleExec = .ok ())
    (hfetch : env.roleFetch = .ok (some false))
    (hcreate : env.createExec = .ok ())
    (hinsert : env.insertExec = .ok ())
    (hifetch : env.insertFetch = .ok (some ts))
    (hcommit : env.commitResult = .ok ()) :
    (check_pg_status pg_ip pg_port dbname user password env).result.db_connected =
        some true ∧
    (check_pg_status pg_ip pg_port dbname user password env).result.is_standby =
        some false ∧
    (check_pg_status pg_ip pg_port dbname user password env).result.inserted_time =
        some ts.strftimeYmdHMS := by
  simp [check_pg_status, hip, hport, applyOuterHandlers, connectBlock, hconn,
    innerWithFinally, innerBody, hrole, hfetch, writeProbe, writeProbeBody,
    hcreate, hinsert, hifetch, hcommit]

/-- Witness for C2: the all-success primary environment at a concrete
target, hypotheses discharged by evaluation. -/
theorem check_pg_status_primary_success_witness :
    (check_pg_status "10.0.0.5" 5432 "mydb" "u" "pw" dbEnvPrimaryOk).result.db_connected =
        some true ∧
    (check_pg_status "10.0.0.5" 5432 "mydb" "u" "pw" dbEnvPrimaryOk).result.is_standby =
        some false ∧
    (check_pg_status "10.0.0.5" 5432 "mydb" "u" "pw" dbEnvPrimaryOk).result.inserted_time =
        some sampleTs.strftimeYmdHMS :=
  check_pg_status_primary_success "10.0.0.5" 5432 "mydb" "u" "pw" dbEnvPrimaryOk
    sampleTs rfl rfl rfl rfl rfl rfl rfl rfl rfl

/-- Claim C3: when the network checks pass, the connection succeeds and
the role query reports a standby, `check_pg_status` returns
`db_connected = true` and `is_standby = true`, and no write (table
creation, insert, or commit) appears in the trace. -/
theorem check_pg_status_standby_no_write
    (pg_ip : String) (pg_port : Nat) (dbname : String) (user : String)
    (password : String) (env : DBEnv)
    (hip : (check_network pg_ip pg_port env.net).status.ip_reachable = true)
    (hport : (check_network pg_ip pg_port env.net).status.port_open = true)
    (hconn : env.connectResult = .ok ())
    (hrole : env.roleExec = .ok ())
    (hfetch : env.roleFetch = .ok (some true)) :
    (check_pg_status pg_ip pg_port dbname user password env).result.db_connected =
        some true ∧
    (check_pg_status pg_ip pg_port dbname user password env).result.is_standby =
        some true ∧
    ∀ e ∈ (check_pg_status pg_ip pg_port dbname user password env).trace,
      e.isWrite = false := by
  have hp1 : (pingBlock env.net).1 = true := by simpa [check_network] using hip
  have hp2 : (sockBlock env.net).1 = true := by simpa [check_network] using hport
  refine ⟨?_, ?_, ?_⟩
  · simp [check_pg_status, check_network, hp1, hp2, applyOuterHandlers,
      connectBlock, hconn, innerWithFinally, innerBody, hrole, hfetch]
  · simp [check_pg_status, check_network, hp1, hp2, applyOuterHandlers,
      connectBlock, hconn, innerWithFinally, innerBody, hrole, hfetch]
  · intro e he
    simp [check_pg_status, check_network, hp1, hp2, applyOuterHandlers,
      connectBlock, hconn, innerWithFinally, innerBody, hrole, hfetch] at he
    rcases he with he | he | he | he | he | he | he <;> subst he <;> rfl

/-- Witness for C3: the standby environment at a concrete target,
hypotheses discharged by evaluation. -/
theorem check_pg_status_standby_no_write_witness :
    (check_pg_status "10.0.0.6" 5432 "mydb" "u" "pw" dbEnvStandby).result.db_connected =
        some true ∧
    (check_pg_status "10.0.0.6" 5432 "mydb" "u" "pw" dbEnvStandby).result.is_standby =
        some true ∧
    ∀ e ∈ (check_pg_status "10.0.0.6" 5432 "mydb" "u" "pw" dbEnvStandby).trace,
      e.isWrite = false :=
  check_pg_status_standby_no_write "10.0.0.6" 5432 "mydb" "u" "pw" dbEnvStandby
    rfl rfl rfl rfl rfl

/-- The outer handlers only rewrite the result dict: they never change the
event trace. -/
theorem applyOuterHandlers_evs (out : StageOut) :
    (applyOuterHandlers out).evs = out.evs := by
  rcases out with ⟨res, evs, exc⟩
  cases exc with
  | none => rfl
  | some e => cases e <;> rfl

/-- The outer handlers catch every exception class, so no exception is
left in flight after them. -/
theorem applyOuterHandlers_exc (out : StageOut) :
    (applyOuterHandlers out).exc = none := by
  rcases out with ⟨res, evs, exc⟩
  cases exc with
  | none => rfl
  | some e => cases e <;> rfl

/-- Claim C4: when connection and role query succeed on a primary but a
`PG_Error` is raised at some step of the create/insert/read-back/commit
write probe, `check_pg_status` returns `db_connected = false` and a
non-empty error message describing the write-probe failure. -/
theorem check_pg_status_write_probe_failure
    (pg_ip : String) (pg_port : Nat) (dbname : String) (user : String)
    (password : String) (env : DBEnv) (m : String)
    (hip : (check_network pg_ip pg_port env.net).status.ip_reachable = true)
    (hport : (check_network pg_ip pg_port env.net).status.port_open = true)
    (hconn : env.connectResult = .ok ())
    (hrole : env.roleExec = .ok ())
    (hfetch : env.roleFetch = .ok (some false))
    (hfail : env.createExec = .error (.pgError m) ∨
      (env.createExec = .ok () ∧ env.insertExec = .error (.pgError m)) ∨
      (env.createExec = .ok () ∧ env.insertExec = .ok () ∧
        env.insertFetch = .error (.pgError m)) ∨
      (∃ ts, env.createExec = .ok () ∧ env.insertExec = .ok () ∧
        env.insertFetch = .ok (some ts) ∧ env.commitResult = .error (.pgError m))) :
    (check_pg_status pg_ip pg_port dbname user password env).result.db_connected =
        some false ∧
    (check_pg_status pg_ip pg_port dbname user password env).result.error =
        some (writeProbeErrorPrefix ++ m) ∧
    0 < (writeProbeErrorPrefix ++ m).length := by
  have hp1 : (pingBlock env.net).1 = true := by simpa [check_network] using hip
  have hp2 : (sockBlock env.net).1 = true := by simpa [check_network] using hport
  have hlen : 0 < (writeProbeErrorPrefix ++ m).length := by
    have h0 : 0 < writeProbeErrorPrefix.length := by decide
    simp only [String.length_append]
    omega
  rcases hfail with hc | ⟨hc, hi⟩ | ⟨hc, hi, hf⟩ | ⟨ts, hc, hi, hf, hm⟩
  · exact ⟨by simp [check_pg_status, check_network, hp1, hp2, applyOuterHandlers,
      connectBlock, hconn, innerWithFinally, innerBody, hrole, hfetch,
      writeProbe, writeProbeBody, hc],
      by simp [check_pg_status, check_network, hp1, hp2, applyOuterHandlers,
        connectBlock, hconn, innerWithFinally, innerBody, hrole, hfetch,
        writeProbe, writeProbeBody, hc], hlen⟩
  · exact ⟨by simp [check_pg_status, check_network, hp1, hp2, applyOuterHandlers,
      connectBlock, hconn, innerWithFinally, innerBody, hrole, hfetch,
      writeProbe, writeProbeBody, hc, hi],
      by simp [check_pg_status, check_network, hp1, hp2, applyOuterHandlers,
        connectBlock, hconn, innerWithFinally, innerBody, hrole, hfetch,
        writeProbe, writeProbeBody, hc, hi], hlen⟩
  · exact ⟨by simp [check_pg_status, check_network, hp1, hp2, applyOuterHandlers,
      connectBlock, hconn, innerWithFinally, innerBody, hrole, hfetch,
      writeProbe, writeProbeBody, hc, hi, hf],
      by simp [check_pg_status, check_network, hp1, hp2, applyOuterHandlers,
        connectBlock, hconn, innerWithFinally, innerBody, hrole, hfetch,
        writeProbe, writeProbeBody, hc, hi, hf], hlen⟩
  · exact ⟨by simp [check_pg_status, check_network, hp1, hp2, applyOuterHandlers,
      connectBlock, hconn, innerWithFinally, innerBody, hrole, hfetch,
      writeProbe, writeProbeBody, hc, hi, hf, hm],
      by simp [check_pg_status, check_network, hp1, hp2, applyOuterHandlers,
        connectBlock, hconn, innerWithFinally, innerBody, hrole, hfetch,
        writeProbe, writeProbeBody, hc, hi, hf, hm], hlen⟩

/-- Witness for C4: a primary whose insert raises a read-only error,
hypotheses discharged by evaluation. -/
theorem check_pg_status_write_probe_failure_witness :
    (check_pg_status "10.0.0.8" 5432 "mydb" "u" "pw" dbEnvInsertFail).result.db_connected =
        some false ∧
    (check_pg_status "10.0.0.8" 5432 "mydb" "u" "pw" dbEnvInsertFail).result.error =
        some (writeProbeErrorPrefix ++ "read-only transaction") ∧
    0 < (writeProbeErrorPrefix ++ "read-only transaction").length :=
  check_pg_status_write_probe_failure "10.0.0.8" 5432 "mydb" "u" "pw" dbEnvInsertFail
    "read-only transaction" rfl rfl rfl rfl rfl (Or.inr (Or.inl ⟨rfl, rfl⟩))

/-- Claim C5: whenever the connection is successfully established, the
cursor-close and connection-close events occur on every exit path from
that point onward — for every environment, whatever the role query, the
role fetch, or any write-probe step does. -/
theorem check_pg_status_releases_connection
    (pg_ip : String) (pg_port : Nat) (dbname : String) (user : String)
    (password : String) (env : DBEnv)
    (hip : (check_network pg_ip pg_port env.net).status.ip_reachable = true)
    (hport : (check_network pg_ip pg_port env.net).status.port_open = true)
    (hconn : env.connectResult = .ok ()) :
    Event.cursorClose ∈ (check_pg_status pg_ip pg_port dbname user password env).trace ∧
    Event.connClose ∈ (check_pg_status pg_ip pg_port dbname user password env).trace := by
  have hp1 : (pingBlock env.net).1 = true := by simpa [check_network] using hip
  have hp2 : (sockBlock env.net).1 = true := by simpa [check_network] using hport
  constructor <;>
    simp [check_pg_status, check_network, hp1, hp2, applyOuterHandlers_evs,
      connectBlock, hconn, innerWithFinally]

/-- Witness for C5: the environment in which the role query raises, run at
a concrete target — the trace still contains both close events. -/
theorem check_pg_status_releases_connection_witness :
    Event.cursorClose ∈ (check_pg_status "10.0.0.9" 5432 "mydb" "u" "pw" dbEnvRoleFail).trace ∧
    Event.connClose ∈ (check_pg_status "10.0.0.9" 5432 "mydb" "u" "pw" dbEnvRoleFail).trace :=
  check_pg_status_releases_connection "10.0.0.9" 5432 "mydb" "u" "pw" dbEnvRoleFail
    rfl rfl rfl

/-- Claim C6: neither `check_network` nor `check_pg_status` lets any
exception escape to its caller: for every environment — every combination
of probe and driver failures — the escaped-exception component of both
embeddings is `none`. -/
theorem check_never_raises (ip : String) (port : Nat) (netEnv : NetEnv)
    (pg_ip : String) (pg_port : Nat) (dbname : String) (user : String)
    (password : String) (env : DBEnv) :
    (check_network ip port netEnv).escaped = none ∧
    (check_pg_status pg_ip pg_port dbname user password env).escaped = none := by
  constructor
  · rcases netEnv with ⟨w, pr, sr⟩
    rcases pr with e | rc <;> rcases sr with e2 | rc2 <;> rfl
  · simp only [check_pg_status]
    split
    · rfl
    · split
      · rfl
      · exact applyOuterHandlers_exc _

/-- The database-side event sequence of a fully successful primary probe,
as the source performs it: connect, role query and fetch, create table,
insert, read back the inserted timestamp, commit, then close cursor and
connection. -/
def dbPrimarySuccessTrace (dbname : String) (user : String) (password : String) :
    List Event :=
  [.connectAttempt dbname user password connectTimeoutSec, .execRoleQuery, .fetchRole,
   .execCreateTable, .execInsert, .fetchInserted, .commitTxn, .cursorClose, .connClose]

/-- Counterexample to claim C7 as stated: on a fully successful primary
probe the write-probe events all occur, yet they are not in the claimed
order create-insert-commit-then-read-back, because the source reads the
inserted timestamp back (via `RETURNING` and `fetchone`) before calling
`commit`. -/
theorem write_probe_commit_order_counterexample :
    (check_pg_status "10.0.0.7" 5432 "mydb" "u" "pw" dbEnvPrimaryOk).trace.contains
        Event.execCreateTable = true ∧
    (check_pg_status "10.0.0.7" 5432 "mydb" "u" "pw" dbEnvPrimaryOk).trace.contains
        Event.execInsert = true ∧
    (check_pg_status "10.0.0.7" 5432 "mydb" "u" "pw" dbEnvPrimaryOk).trace.contains
        Event.fetchInserted = true ∧
    (check_pg_status "10.0.0.7" 5432 "mydb" "u" "pw" dbEnvPrimaryOk).trace.contains
        Event.commitTxn = true ∧
    specClaimedWriteOrder
        (check_pg_status "10.0.0.7" 5432 "mydb" "u" "pw" dbEnvPrimaryOk).trace = false := by
  decide

/-- Claim C7 as amended: on the primary branch the write probe performs,
in this order, the idempotent table creation, the insert of one row with
the current server timestamp, the read-back of the inserted timestamp,
and then the commit. -/
theorem write_probe_source_order
    (pg_ip : String) (pg_port : Nat) (dbname : String) (user : String)
    (password : String) (env : DBEnv) (ts : PyDatetime)
    (hip : (check_network pg_ip pg_port env.net).status.ip_reachable = true)
    (hport : (check_network pg_ip pg_port env.net).status.port_open = true)
    (hconn : env.connectResult = .ok ())
    (hrole : env.roleExec = .ok ())
    (hfetch : env.roleFetch = .ok (some false))
    (hcreate : env.createExec = .ok ())
    (hinsert : env.insertExec = .ok ())
    (hifetch : env.insertFetch = .ok (some ts))
    (hcommit : env.commitResult = .ok ()) :
    (check_pg_status pg_ip pg_port dbname user password env).trace =
      (check_network pg_ip pg_port env.net).trace ++
        dbPrimarySuccessTrace dbname user password ∧
    sourceWriteOrder (dbPrimarySuccessTrace dbname user password) = true ∧
    specClaimedWriteOrder (dbPrimarySuccessTrace dbname user password) = false := by
  have hp1 : (pingBlock env.net).1 = true := by simpa [check_network] using hip
  have hp2 : (sockBlock env.net).1 = true := by simpa [check_network] using hport
  refine ⟨?_, rfl, rfl⟩
  simp [check_pg_status, check_network, hp1, hp2, applyOuterHandlers, connectBlock,
    hconn, innerWithFinally, innerBody, hrole, hfetch, writeProbe, writeProbeBody,
    hcreate, hinsert, hifetch, hcommit, dbPrimarySuccessTrace]

/-- Witness for C7's amended theorem: the all-success primary environment
at a concrete target, hypotheses discharged by evaluation. -/
theorem write_probe_source_order_witness :
    (check_pg_status "10.0.1.7" 5432 "mydb" "u" "pw" dbEnvPrimaryOk).trace =
      (check_network "10.0.1.7" 5432 dbEnvPrimaryOk.net).trace ++
        dbPrimarySuccessTrace "mydb" "u" "pw" ∧
    sourceWriteOrder (dbPrimarySuccessTrace "mydb" "u" "pw") = true ∧
    specClaimedWriteOrder (dbPrimarySuccessTrace "mydb" "u" "pw") = false :=
  write_probe_source_order "10.0.1.7" 5432 "mydb" "u" "pw" dbEnvPrimaryOk sampleTs
    rfl rfl rfl rfl rfl rfl rfl rfl rfl

/-- Claim C8: within one `check_network` invocation the TCP probe is
executed even when the ICMP ping reports failure, and `port_open` is
measured independently of the ping outcome: any environment with the same
`connect_ex` behaviour yields the same `port_open`. -/
theorem check_network_tcp_independent
    (ip : String) (port : Nat) (env : NetEnv) (envAlt : NetEnv)
    (hping : (check_network ip port env).status.ip_reachable = false)
    (hsock : envAlt.sockConnectEx = env.sockConnectEx) :
    Event.tcpProbe ip port sockTimeoutSec ∈ (check_network ip port env).trace ∧
    (check_network ip port envAlt).status.port_open =
      (check_network ip port env).status.port_open := by
  constructor
  · simp [check_network]
  · simp [check_network, sockBlock, hsock]

/-- Witness for C8: ping fails (exit code 1) yet the TCP probe event is in
the trace, and an environment with ping succeeding but the same
`connect_ex` outcome reports the same `port_open`. -/
theorem check_network_tcp_independent_witness :
    Event.tcpProbe "192.0.2.3" 5432 sockTimeoutSec ∈
      (check_network "192.0.2.3" 5432 netEnvPingFail).trace ∧
    (check_network "192.0.2.3" 5432 netEnvAllOk).status.port_open =
      (check_network "192.0.2.3" 5432 netEnvPingFail).status.port_open :=
  check_network_tcp_independent "192.0.2.3" 5432 netEnvPingFail netEnvAllOk rfl rfl

/-- Counterexample to claim C9 as stated: `check_network` does not take
three inputs — its declared parameter list is `(ip, port)`, with no
timeout parameter. -/
theorem check_network_param_count_counterexample :
    ¬ check_network_params.length = 3 := by
  decide

/-- Claim C9 as amended: `check_network` takes two inputs, host and port;
the timeout is not a parameter but is fixed at 5 seconds, and that fixed
value bounds both the ICMP ping and the TCP connect. -/
theorem check_network_fixed_five_second_timeout :
    check_network_params = ["ip", "port"] ∧
    ∀ (ip : String) (port : Nat) (env : NetEnv),
      (check_network ip port env).trace =
        [.pingProbe (pingCommand env.isWindows ip) 5, .tcpProbe ip port 5] :=
  ⟨rfl, fun _ _ _ => rfl⟩

/-- Claim C10: when the connection is established but the standby-role
query raises a `PG_Error` (at `execute` or at the row fetch), the outer
connection-failure handler classifies it: `db_connected = false` with the
connection-failure message, not a distinct query-failure message. -/
theorem check_pg_status_role_query_error
    (pg_ip : String) (pg_port : Nat) (dbname : String) (user : String)
    (password : String) (env : DBEnv) (m : String)
    (hip : (check_network pg_ip pg_port env.net).status.ip_reachable = true)
    (hport : (check_network pg_ip pg_port env.net).status.port_open = true)
    (hconn : env.connectResult = .ok ())
    (hfail : env.roleExec = .error (.pgError m) ∨
      (env.roleExec = .ok () ∧ env.roleFetch = .error (.pgError m))) :
    (check_pg_status pg_ip pg_port dbname user password env).result.db_connected =
        some false ∧
    (check_pg_status pg_ip pg_port dbname user password env).result.error =
        some (connectFailedPrefix ++ m) := by
  have hp1 : (pingBlock env.net).1 = true := by simpa [check_network] using hip
  have hp2 : (sockBlock env.net).1 = true := by simpa [check_network] using hport
  rcases hfail with hr | ⟨hr, hf⟩
  · constructor <;>
      simp [check_pg_status, check_network, hp1, hp2, applyOuterHandlers,
        connectBlock, hconn, innerWithFinally, innerBody, hr]
  · constructor <;>
      simp [check_pg_status, check_network, hp1, hp2, applyOuterHandlers,
        connectBlock, hconn, innerWithFinally, innerBody, hr, hf]

/-- Witness for C10: the role query raises a `PG_Error` at a concrete
target; the result carries the connection-failure message. -/
theorem check_pg_status_role_query_error_witness :
    (check_pg_status "10.0.0.10" 5432 "mydb" "u" "pw" dbEnvRoleFail).result.db_connected =
        some false ∧
    (check_pg_status "10.0.0.10" 5432 "mydb" "u" "pw" dbEnvRoleFail).result.error =
        some (connectFailedPrefix ++ "server closed the connection") :=
  check_pg_status_role_query_error "10.0.0.10" 5432 "mydb" "u" "pw" dbEnvRoleFail
    "server closed the connection" rfl rfl rfl (Or.inl rfl)
